import Mathlib

/-!
Shallow embedding of the threshold-driven health / optimization engine of the
Hella_Rusty repository, as implemented in
`tools/scripts/validate_deployment.py` (the aggregator `assess_system_health`
over `ValidationResult` records) and `tools/scripts/optimize_performance.py`
(`analyze_performance`, `generate_optimization_plan`,
`group_by_implementation_phase`, `assess_risks`, `generate_rollback_plan`).

Python floats are modelled as rationals, Python dicts keyed by strings as
association lists (looked up with `find?`; the theorems that depend on dict
semantics carry a `Nodup` hypothesis on the key list, which holds for the
`dict.keys()` iterations of the source).
-/

namespace Chimera

/-- The status strings of `ValidationResult` in validate_deployment.py:
"pass", "fail", "warning", "error". -/
inductive VStatus where
  | pass
  | fail
  | warning
  | error
deriving DecidableEq, Repr

/-- The overall / per-layer health strings of validate_deployment.py:
"healthy", "degraded", "unhealthy". -/
inductive HStatus where
  | healthy
  | degraded
  | unhealthy
deriving DecidableEq, Repr

/-- `ValidationResult` of validate_deployment.py, restricted to the fields read
by `assess_system_health` (layer, status, message) plus the identifying
component and check type. -/
structure ValidationResult where
  component : String
  layer : String
  check_type : String
  status : VStatus
  message : String
deriving DecidableEq, Repr

/-- `SystemHealth` of validate_deployment.py. `layer_status` is the dict built
in insertion order; `performance_score` is the float score as a rational. -/
structure SystemHealth where
  overall_status : HStatus
  layer_status : List (String × HStatus)
  critical_issues : List String
  warnings : List String
  performance_score : ℚ
deriving DecidableEq, Repr

/-- `[r for r in self.validation_results if r.layer == layer]`. -/
def layerResults (results : List ValidationResult) (layer : String) :
    List ValidationResult :=
  results.filter (fun r => r.layer == layer)

/-- `r.status in ["fail", "error"]`. -/
def isFailed (r : ValidationResult) : Bool :=
  r.status == VStatus.fail || r.status == VStatus.error

/-- `r.status == "warning"`. -/
def isWarning (r : ValidationResult) : Bool :=
  r.status == VStatus.warning

/-- One iteration of the `for layer in self.config["layers"].keys()` loop of
`assess_system_health`, producing the `layer_status[layer]` entry: the layer is
skipped when it has no results, otherwise it is "unhealthy" when it has failed
checks, "degraded" when it has warning checks and no failed ones, and
"healthy" otherwise. -/
def layerEntry (results : List ValidationResult) (layer : String) :
    Option (String × HStatus) :=
  let lr := layerResults results layer
  if lr.isEmpty then none
  else if 0 < (lr.filter isFailed).length then some (layer, HStatus.unhealthy)
  else if 0 < (lr.filter isWarning).length then some (layer, HStatus.degraded)
  else some (layer, HStatus.healthy)

/-- The `critical_issues` contribution of one layer in `assess_system_health`:
the prefixed messages of its fail/error results, emitted only in the
`failed_checks > 0` branch. -/
def layerCriticalIssues (results : List ValidationResult) (layer : String) :
    List String :=
  let lr := layerResults results layer
  if lr.isEmpty then []
  else if 0 < (lr.filter isFailed).length then
    (lr.filter isFailed).map (fun r => "Layer " ++ layer ++ ": " ++ r.message)
  else []

/-- The `warnings` contribution of one layer in `assess_system_health`: the
prefixed messages of its warning results, emitted only in the
`failed_checks == 0 and warning_checks > 0` branch. -/
def layerWarnings (results : List ValidationResult) (layer : String) :
    List String :=
  let lr := layerResults results layer
  if lr.isEmpty then []
  else if 0 < (lr.filter isFailed).length then []
  else if 0 < (lr.filter isWarning).length then
    (lr.filter isWarning).map (fun r => "Layer " ++ layer ++ ": " ++ r.message)
  else []

/-- `assess_system_health` of validate_deployment.py, as a function of the
accumulated validation results and of `self.config["layers"].keys()`. -/
def assessSystemHealth (results : List ValidationResult)
    (layers : List String) : SystemHealth :=
  let layer_status := layers.filterMap (layerEntry results)
  let critical_issues := layers.flatMap (layerCriticalIssues results)
  let warnings := layers.flatMap (layerWarnings results)
  let unhealthy_layers :=
    (layer_status.filter (fun p => p.2 == HStatus.unhealthy)).length
  let degraded_layers :=
    (layer_status.filter (fun p => p.2 == HStatus.degraded)).length
  let overall_status :=
    if 0 < unhealthy_layers then HStatus.unhealthy
    else if 2 < degraded_layers then HStatus.degraded
    else HStatus.healthy
  let total_checks := results.length
  let successful_checks :=
    (results.filter (fun r => r.status == VStatus.pass)).length
  let performance_score : ℚ :=
    if 0 < total_checks then (successful_checks : ℚ) / (total_checks : ℚ)
    else 0
  { overall_status := overall_status
    layer_status := layer_status
    critical_issues := critical_issues
    warnings := warnings
    performance_score := performance_score }

/-- The pure classification inside `test_response_time` of
validate_deployment.py: "pass" when the measured time is at most the
threshold, "warning" otherwise. -/
def classifyResponseTime (response_time threshold : ℚ) : VStatus :=
  if response_time ≤ threshold then VStatus.pass else VStatus.warning

/-- Scope-level predicate: the scope has at least one fail/error result
(the condition under which `assess_system_health` marks it "unhealthy"). -/
def scopeUnhealthy (results : List ValidationResult) (layer : String) : Bool :=
  0 < ((layerResults results layer).filter isFailed).length

/-- Scope-level predicate: the scope has no fail/error result and at least one
warning result (the condition under which `assess_system_health` marks it
"degraded"). -/
def scopeDegraded (results : List ValidationResult) (layer : String) : Bool :=
  ((layerResults results layer).filter isFailed).length == 0 &&
    0 < ((layerResults results layer).filter isWarning).length

/-- `PerformanceMetrics` of optimize_performance.py (the fields read by
`analyze_performance`; floats become rationals). -/
structure PerformanceMetrics where
  component : String
  layer : String
  cpu_usage : ℚ
  memory_usage : ℚ
  response_time : ℚ
  throughput : ℚ
  error_rate : ℚ
deriving DecidableEq, Repr

/-- `OptimizationRecommendation` of optimize_performance.py (without the
`status` field, which none of the analysed functions read). -/
structure OptimizationRecommendation where
  component : String
  layer : String
  issue : String
  recommendation : String
  expected_improvement : ℚ
  implementation_effort : String
  priority : String
deriving DecidableEq, Repr

/-- One entry of `self.config["targets"]`: the per-layer thresholds, each of
which may be absent (the source reads them with `dict.get(key, default)`). -/
structure LayerConfig where
  cpu_threshold : Option ℚ
  memory_threshold : Option ℚ
  response_time_threshold : Option ℚ
deriving DecidableEq, Repr

/-- `self.config["targets"].get(metric.layer, {})`. -/
def lookupConfig (targets : List (String × LayerConfig)) (layer : String) :
    LayerConfig :=
  match targets.find? (fun p => p.1 == layer) with
  | some p => p.2
  | none => ⟨none, none, none⟩

/-- The recommendation emitted for `metric.cpu_usage > cpu_threshold`. -/
def cpuRecommendation (m : PerformanceMetrics) : OptimizationRecommendation :=
  { component := m.component
    layer := m.layer
    issue := "High CPU usage"
    recommendation := "Consider horizontal scaling or CPU optimization"
    expected_improvement := 15 / 100
    implementation_effort := "medium"
    priority := "high" }

/-- The recommendation emitted for `metric.memory_usage > memory_threshold`. -/
def memoryRecommendation (m : PerformanceMetrics) :
    OptimizationRecommendation :=
  { component := m.component
    layer := m.layer
    issue := "High memory usage"
    recommendation := "Implement memory pooling or increase memory allocation"
    expected_improvement := 20 / 100
    implementation_effort := "low"
    priority := "high" }

/-- The recommendation emitted for
`metric.response_time > response_time_threshold`. -/
def responseTimeRecommendation (m : PerformanceMetrics) :
    OptimizationRecommendation :=
  { component := m.component
    layer := m.layer
    issue := "High response time"
    recommendation := "Optimize algorithms or add caching layer"
    expected_improvement := 25 / 100
    implementation_effort := "medium"
    priority := "medium" }

/-- The recommendation emitted for `metric.error_rate > 0.05`. -/
def errorRateRecommendation (m : PerformanceMetrics) :
    OptimizationRecommendation :=
  { component := m.component
    layer := m.layer
    issue := "High error rate"
    recommendation := "Improve error handling and add circuit breakers"
    expected_improvement := 30 / 100
    implementation_effort := "high"
    priority := "high" }

/-- The body of the `for metric in metrics` loop of `analyze_performance`:
the four threshold checks against `layer_config.get(..., default)`, with
defaults 0.8 (cpu), 0.8 (memory), 2.0 (response time) and the global 0.05
error-rate bound. -/
def perMetricRecommendations (targets : List (String × LayerConfig))
    (m : PerformanceMetrics) : List OptimizationRecommendation :=
  let cfg := lookupConfig targets m.layer
  (if cfg.cpu_threshold.getD (8 / 10) < m.cpu_usage
    then [cpuRecommendation m] else []) ++
  (if cfg.memory_threshold.getD (8 / 10) < m.memory_usage
    then [memoryRecommendation m] else []) ++
  (if cfg.response_time_threshold.getD 2 < m.response_time
    then [responseTimeRecommendation m] else []) ++
  (if 5 / 100 < m.error_rate then [errorRateRecommendation m] else [])

/-- `{m.layer: m.response_time for m in metrics}.get(layer, 0)`: dict
comprehension semantics, the last metric with the given layer wins. -/
def layerResponseTime (metrics : List PerformanceMetrics) (layer : String) :
    ℚ :=
  match metrics.reverse.find? (fun m => m.layer == layer) with
  | some m => m.response_time
  | none => 0

/-- The system-scoped contention recommendation of
`analyze_cross_layer_optimizations`. -/
def contentionRecommendation : OptimizationRecommendation :=
  { component := "cross_layer_scheduler"
    layer := "system"
    issue := "Resource contention across layers"
    recommendation := "Implement resource-aware scheduling and load balancing"
    expected_improvement := 18 / 100
    implementation_effort := "high"
    priority := "medium" }

/-- The system-scoped bottleneck recommendation of
`analyze_cross_layer_optimizations`. -/
def bottleneckRecommendation : OptimizationRecommendation :=
  { component := "data_pipeline"
    layer := "system"
    issue := "Data flow bottlenecks"
    recommendation := "Implement async processing and pipeline optimization"
    expected_improvement := 22 / 100
    implementation_effort := "medium"
    priority := "medium" }

/-- `analyze_cross_layer_optimizations` of optimize_performance.py. -/
def analyzeCrossLayerOptimizations (metrics : List PerformanceMetrics) :
    List OptimizationRecommendation :=
  let high_cpu_layers :=
    (metrics.filter (fun m => 8 / 10 < m.cpu_usage)).map (fun m => m.layer)
  (if 2 < high_cpu_layers.length then [contentionRecommendation] else []) ++
  (if (List.range 8).any
      (fun i => 3 < layerResponseTime metrics ("layer" ++ toString (i + 1)))
    then [bottleneckRecommendation] else [])

/-- `analyze_performance` of optimize_performance.py: the per-metric loop
followed by `recommendations.extend(self.analyze_cross_layer_optimizations)`,
as a function of `self.config["targets"]`. -/
def analyzePerformance (targets : List (String × LayerConfig))
    (metrics : List PerformanceMetrics) : List OptimizationRecommendation :=
  metrics.flatMap (perMetricRecommendations targets) ++
    analyzeCrossLayerOptimizations metrics

/-- `priority_order.get(r.priority, 3)` with
`priority_order = {"critical": 0, "high": 1, "medium": 2, "low": 3}`. -/
def priorityOrder (p : String) : Nat :=
  if p = "critical" then 0
  else if p = "high" then 1
  else if p = "medium" then 2
  else if p = "low" then 3
  else 3

/-- The comparison underlying
`sorted(recommendations, key=lambda r: (priority_order.get(r.priority, 3),
-r.expected_improvement))`: lexicographic order on the key, written as a
boolean total preorder (negated improvements compare as reversed
improvements). -/
def recLE (a b : OptimizationRecommendation) : Bool :=
  decide (priorityOrder a.priority < priorityOrder b.priority) ||
    (decide (priorityOrder a.priority = priorityOrder b.priority) &&
      decide (b.expected_improvement ≤ a.expected_improvement))

/-- Python `sorted` with the key above: a stable merge sort under `recLE`. -/
def sortedRecommendations (recs : List OptimizationRecommendation) :
    List OptimizationRecommendation :=
  recs.mergeSort recLE

/-- The four phase names of `group_by_implementation_phase`. -/
inductive Phase where
  | immediate
  | short_term
  | medium_term
  | long_term
deriving DecidableEq, Repr

/-- `effort_mapping.get(rec.implementation_effort, "medium_term")` with
`effort_mapping = {"low": "immediate", "medium": "short_term",
"high": "medium_term", "complex": "long_term"}`. -/
def effortPhase (effort : String) : Phase :=
  if effort = "low" then Phase.immediate
  else if effort = "medium" then Phase.short_term
  else if effort = "high" then Phase.medium_term
  else if effort = "complex" then Phase.long_term
  else Phase.medium_term

/-- The `phases` dict of `group_by_implementation_phase`: four ordered
lists. -/
structure Phases where
  immediate : List OptimizationRecommendation
  short_term : List OptimizationRecommendation
  medium_term : List OptimizationRecommendation
  long_term : List OptimizationRecommendation
deriving DecidableEq, Repr

/-- `phases[phase].append(rec)`: one iteration of the loop of
`group_by_implementation_phase`. -/
def phaseAppend (ph : Phases) (rec : OptimizationRecommendation) : Phases :=
  match effortPhase rec.implementation_effort with
  | Phase.immediate =>
      ⟨ph.immediate ++ [rec], ph.short_term, ph.medium_term, ph.long_term⟩
  | Phase.short_term =>
      ⟨ph.immediate, ph.short_term ++ [rec], ph.medium_term, ph.long_term⟩
  | Phase.medium_term =>
      ⟨ph.immediate, ph.short_term, ph.medium_term ++ [rec], ph.long_term⟩
  | Phase.long_term =>
      ⟨ph.immediate, ph.short_term, ph.medium_term, ph.long_term ++ [rec]⟩

/-- `group_by_implementation_phase` of optimize_performance.py. -/
def groupByImplementationPhase (recs : List OptimizationRecommendation) :
    Phases :=
  recs.foldl phaseAppend ⟨[], [], [], []⟩

/-- Projection of `Phases` by phase name. -/
def phaseList (ph : Phases) : Phase → List OptimizationRecommendation
  | Phase.immediate => ph.immediate
  | Phase.short_term => ph.short_term
  | Phase.medium_term => ph.medium_term
  | Phase.long_term => ph.long_term

/-- `rec.priority in ["critical", "high"]`. -/
def isHighPriority (r : OptimizationRecommendation) : Bool :=
  r.priority == "critical" || r.priority == "high"

/-- The `risk_assessment` dict of `assess_risks`. -/
structure RiskAssessment where
  high_priority_changes : Nat
  estimated_improvement : ℚ
  risk_level : String
  monitoring_required : Bool
deriving DecidableEq, Repr

/-- `assess_risks` of optimize_performance.py. -/
def assessRisks (recs : List OptimizationRecommendation) : RiskAssessment :=
  let high_priority_count := (recs.filter isHighPriority).length
  let total_improvement :=
    (recs.map (fun r => r.expected_improvement)).sum
  { high_priority_changes := high_priority_count
    estimated_improvement := total_improvement
    risk_level :=
      if high_priority_count ≤ 2 then "low"
      else if high_priority_count ≤ 5 then "medium"
      else "high"
    monitoring_required := 0 < high_priority_count }

/-- The first line of a rollback pair in `generate_rollback_plan`. -/
def rollbackLine (r : OptimizationRecommendation) : String :=
  "Rollback " ++ r.component ++ ": Restore previous configuration"

/-- The second line of a rollback pair in `generate_rollback_plan`. -/
def verifyLine (r : OptimizationRecommendation) : String :=
  "Verify " ++ r.component ++ ": Check metrics return to baseline"

/-- `generate_rollback_plan` of optimize_performance.py: the loop appends a
two-line pair for each critical/high priority recommendation, in the order of
its argument. -/
def generateRollbackPlan (recs : List OptimizationRecommendation) :
    List String :=
  recs.flatMap (fun r =>
    if isHighPriority r then [rollbackLine r, verifyLine r] else [])

/-- The `plan` dict of `generate_optimization_plan` (without the
timestamp). -/
structure OptimizationPlan where
  total_recommendations : Nat
  estimated_improvement : ℚ
  phases : Phases
  risk_assessment : RiskAssessment
  rollback_plan : List String
deriving DecidableEq, Repr

/-- `generate_optimization_plan` of optimize_performance.py: the phases are
built from the sorted list, while `assess_risks` and
`generate_rollback_plan` receive the original (unsorted) argument. -/
def generateOptimizationPlan (recs : List OptimizationRecommendation) :
    OptimizationPlan :=
  let sorted_recommendations := sortedRecommendations recs
  { total_recommendations := recs.length
    estimated_improvement := (recs.map (fun r => r.expected_improvement)).sum
    phases := groupByImplementationPhase sorted_recommendations
    risk_assessment := assessRisks recs
    rollback_plan := generateRollbackPlan recs }

/-- A metric sitting exactly at every default threshold of
`analyze_performance` (cpu 0.8, memory 0.8, response time 2.0, error rate
0.05). -/
def metricAtBoundary : PerformanceMetrics :=
  ⟨"gateway_service", "layer1", 8 / 10, 8 / 10, 2, 0, 5 / 100⟩

/-- A metric for a layer missing from the rule set, with cpu usage above the
default 0.8 threshold and everything else below its default bound. -/
def unconfiguredMetric : PerformanceMetrics :=
  ⟨"gateway_service", "layer1", 9 / 10, 1 / 2, 1 / 2, 0, 1 / 100⟩

/-- A rule set that configures only layer2. -/
def exampleTargets : List (String × LayerConfig) :=
  [("layer2", ⟨some (6 / 10), some (7 / 10), some 2⟩)]

/-- A high-priority recommendation, first in discovery order. -/
def highRec : OptimizationRecommendation :=
  ⟨"api_service", "layer1", "High memory usage",
   "Implement memory pooling or increase memory allocation",
   20 / 100, "low", "high"⟩

/-- A critical-priority recommendation, second in discovery order. -/
def criticalRec : OptimizationRecommendation :=
  ⟨"db_service", "layer2", "Outage risk", "Restore replica set",
   5 / 100, "high", "critical"⟩

/-- First of two recommendations with identical priority and identical
expected improvement. -/
def tieA : OptimizationRecommendation :=
  ⟨"svc_a", "layer1", "High response time",
   "Optimize algorithms or add caching layer", 25 / 100, "medium", "medium"⟩

/-- Second of two recommendations with identical priority and identical
expected improvement. -/
def tieB : OptimizationRecommendation :=
  ⟨"svc_b", "layer4", "High response time",
   "Optimize algorithms or add caching layer", 25 / 100, "medium", "medium"⟩

/-- A recommendation whose effort string matches no key of the
effort-to-phase mapping. -/
def oddEffortRec : OptimizationRecommendation :=
  ⟨"cache_service", "layer3", "Memory fragmentation", "Compact the arena",
   10 / 100, "experimental", "low"⟩

/-- A failed check for scope A. -/
def failResultA : ValidationResult :=
  ⟨"db_service", "A", "health", VStatus.fail, "connection refused"⟩

/-- A warning check for scope A. -/
def warnResultA : ValidationResult :=
  ⟨"api_service", "A", "performance", VStatus.warning, "high response time"⟩

/-- A warning check for scope B. -/
def warnResultB : ValidationResult :=
  ⟨"api_service", "B", "performance", VStatus.warning, "high response time"⟩

/-- A warning check for an arbitrary scope. -/
def warnFor (l : String) : ValidationResult :=
  ⟨"api_service", l, "performance", VStatus.warning, "high response time"⟩

/-! Helper lemmas about the aggregator. -/

/-- The per-layer branch of `assess_system_health`, re-expressed through the
scope predicates. -/
theorem layerEntry_cases (results : List ValidationResult) (l : String) :
    layerEntry results l =
      if scopeUnhealthy results l then some (l, HStatus.unhealthy)
      else if scopeDegraded results l then some (l, HStatus.degraded)
      else if (layerResults results l).isEmpty then none
      else some (l, HStatus.healthy) := by
  by_cases he : (layerResults results l).isEmpty
  · have h0 : layerResults results l = [] := by simpa [List.isEmpty_iff] using he
    simp [layerEntry, scopeUnhealthy, scopeDegraded, he, h0]
  · by_cases hf : 0 < ((layerResults results l).filter isFailed).length
    · simp [layerEntry, scopeUnhealthy, scopeDegraded, he, hf,
        Nat.pos_iff_ne_zero]
    · by_cases hw : 0 < ((layerResults results l).filter isWarning).length
      · simp [layerEntry, scopeUnhealthy, scopeDegraded, he, hf, hw,
          Nat.eq_zero_of_not_pos hf]
      · simp [layerEntry, scopeUnhealthy, scopeDegraded, he, hf, hw]

/-- Counting entries of a given status in the layer-status map equals counting
the layers satisfying the matching scope predicate. -/
theorem count_status_filterMap (results : List ValidationResult)
    (layers : List String) (s : HStatus) (p : String → Bool)
    (hp : ∀ l, (layerEntry results l).any (fun e => e.2 == s) = p l) :
    ((layers.filterMap (layerEntry results)).filter (fun e => e.2 == s)).length
      = (layers.filter p).length := by
  induction layers with
  | nil => rfl
  | cons a t ih =>
      rw [List.filterMap_cons, List.filter_cons]
      cases h : layerEntry results a with
      | none =>
          have : p a = false := by simpa [h] using (hp a).symm
          simp [this, ih]
      | some e =>
          have hpa : (e.2 == s) = p a := by simpa [h, Option.any] using hp a
          rw [List.filter_cons]
          by_cases hes : (e.2 == s) = true
          · simp [hes, ← hpa, ih]
          · simp [Bool.eq_false_iff.mpr hes, ← hpa, ih]

/-- A layer-status entry is "unhealthy" exactly when the scope has a
fail/error result. -/
theorem layerEntry_any_unhealthy (results : List ValidationResult)
    (l : String) :
    (layerEntry results l).any (fun e => e.2 == HStatus.unhealthy)
      = scopeUnhealthy results l := by
  rw [layerEntry_cases]
  by_cases hu : scopeUnhealthy results l
  · simp [hu]
  · by_cases hd : scopeDegraded results l
    · simp [hu, hd]
    · by_cases he : (layerResults results l).isEmpty <;> simp [hu, hd, he]

/-- A layer-status entry is "degraded" exactly when the scope has a warning
result and no fail/error result. -/
theorem layerEntry_any_degraded (results : List ValidationResult)
    (l : String) :
    (layerEntry results l).any (fun e => e.2 == HStatus.degraded)
      = scopeDegraded results l := by
  rw [layerEntry_cases]
  by_cases hu : scopeUnhealthy results l
  · have hlen : ((layerResults results l).filter isFailed).length ≠ 0 :=
      Nat.pos_iff_ne_zero.mp (by simpa [scopeUnhealthy] using hu)
    have hd0 : scopeDegraded results l = false := by simp [scopeDegraded, hlen]
    simp [hu, hd0]
  · by_cases hd : scopeDegraded results l
    · simp [hu, hd]
    · by_cases he : (layerResults results l).isEmpty <;> simp [hu, hd, he]

/-- Every layer-status entry carries the layer it was produced for as its
key. -/
theorem layerEntry_key (results : List ValidationResult) (l : String)
    (e : String × HStatus) (h : layerEntry results l = some e) : e.1 = l := by
  rw [layerEntry_cases] at h
  by_cases hu : scopeUnhealthy results l
  · simp [hu] at h; simp [← h]
  · by_cases hd : scopeDegraded results l
    · simp [hu, hd] at h; simp [← h]
    · by_cases he : (layerResults results l).isEmpty
      · simp [hu, hd, he] at h
      · simp [hu, hd, he] at h; simp [← h]

/-- Looking a configured layer up in the layer-status map yields precisely its
per-layer branch result (association lists with distinct keys behave as the
source's dict). -/
theorem find_layerStatus (results : List ValidationResult)
    (layers : List String) (l : String) (hl : l ∈ layers)
    (hnd : layers.Nodup) :
    (layers.filterMap (layerEntry results)).find? (fun p => p.1 == l)
      = layerEntry results l := by
  induction layers with
  | nil => cases hl
  | cons a t ih =>
      have hnd' : t.Nodup := (List.nodup_cons.mp hnd).2
      have hna : a ∉ t := (List.nodup_cons.mp hnd).1
      rcases List.mem_cons.mp hl with rfl | hlt
      · cases h : layerEntry results l with
        | none =>
            rw [List.filterMap_cons_none h]
            have hnone : ∀ p ∈ t.filterMap (layerEntry results),
                ¬ (p.1 == l) = true := by
              intro p hp
              obtain ⟨b, hb, hbe⟩ := List.mem_filterMap.mp hp
              have hpb : p.1 = b := layerEntry_key results b p hbe
              simp [hpb]
              intro hbl
              exact hna (hbl ▸ hb)
            rw [List.find?_eq_none.mpr hnone]
        | some e =>
            rw [List.filterMap_cons_some h]
            have he1 : e.1 = l := layerEntry_key results l e h
            have hpe : (e.1 == l) = true := by simp [he1]
            simp [List.find?, hpe]
      · have hla : l ≠ a := fun hh => hna (hh ▸ hlt)
        cases h : layerEntry results a with
        | none =>
            rw [List.filterMap_cons_none h]
            exact ih hlt hnd'
        | some e =>
            rw [List.filterMap_cons_some h]
            have he1 : e.1 = a := layerEntry_key results a e h
            have hne : (e.1 == l) = false := by
              simp [he1]
              exact fun hh => hla hh.symm
            rw [List.find?]
            simp only [hne]
            exact ih hlt hnd'

/-- The guard around the critical-issue messages of one layer is redundant:
the contribution is always the prefixed messages of its fail/error results. -/
theorem layerCriticalIssues_eq (results : List ValidationResult)
    (l : String) :
    layerCriticalIssues results l =
      ((layerResults results l).filter isFailed).map
        (fun r => "Layer " ++ l ++ ": " ++ r.message) := by
  by_cases he : (layerResults results l).isEmpty
  · have h0 : layerResults results l = [] := by simpa [List.isEmpty_iff] using he
    simp [layerCriticalIssues, h0]
  · by_cases hf : 0 < ((layerResults results l).filter isFailed).length
    · simp [layerCriticalIssues, he, hf]
    · have h0 : (layerResults results l).filter isFailed = [] := by
        simpa [List.length_eq_zero] using Nat.eq_zero_of_not_pos hf
      simp [layerCriticalIssues, he, hf, h0]

/-- The warnings contribution of one layer: its prefixed warning messages if
the layer has no fail/error result, nothing otherwise. -/
theorem layerWarnings_eq (results : List ValidationResult) (l : String) :
    layerWarnings results l =
      (if (layerResults results l).filter isFailed = [] then
        ((layerResults results l).filter isWarning).map
          (fun r => "Layer " ++ l ++ ": " ++ r.message)
      else []) := by
  by_cases he : (layerResults results l).isEmpty
  · have h0 : layerResults results l = [] := by simpa [List.isEmpty_iff] using he
    simp [layerWarnings, h0]
  · by_cases hf : 0 < ((layerResults results l).filter isFailed).length
    · have hne : (layerResults results l).filter isFailed ≠ [] := by
        intro h0
        rw [h0] at hf
        simp at hf
      simp [layerWarnings, he, hf, hne]
    · have h0 : (layerResults results l).filter isFailed = [] := by
        simpa [List.length_eq_zero] using Nat.eq_zero_of_not_pos hf
      by_cases hw : 0 < ((layerResults results l).filter isWarning).length
      · simp [layerWarnings, he, hf, h0, hw]
      · have hw0 : (layerResults results l).filter isWarning = [] := by
          simpa [List.length_eq_zero] using Nat.eq_zero_of_not_pos hw
        simp [layerWarnings, he, hf, h0, hw, hw0]

/-! Helper lemmas about the planner. -/

/-- The rollback plan is the two-line pairs of the critical/high
recommendations, in the order of the argument list. -/
theorem rollback_filter (recs : List OptimizationRecommendation) :
    generateRollbackPlan recs =
      (recs.filter isHighPriority).flatMap
        (fun r => [rollbackLine r, verifyLine r]) := by
  induction recs with
  | nil => rfl
  | cons r t ih =>
      by_cases h : isHighPriority r <;>
        simp [generateRollbackPlan, List.filter_cons, h] at ih ⊢ <;>
        exact ih

/-- The sort comparison is total. -/
theorem recLE_total (a b : OptimizationRecommendation) :
    recLE a b || recLE b a := by
  simp only [recLE, Bool.or_eq_true, Bool.and_eq_true, decide_eq_true_eq]
  rcases Nat.lt_trichotomy (priorityOrder a.priority)
      (priorityOrder b.priority) with h | h | h
  · exact Or.inl (Or.inl h)
  · rcases le_total b.expected_improvement a.expected_improvement with he | he
    · exact Or.inl (Or.inr ⟨h, he⟩)
    · exact Or.inr (Or.inr ⟨h.symm, he⟩)
  · exact Or.inr (Or.inl h)

/-- The sort comparison is transitive. -/
theorem recLE_trans (a b c : OptimizationRecommendation) :
    recLE a b → recLE b c → recLE a c := by
  simp only [recLE, Bool.or_eq_true, Bool.and_eq_true, decide_eq_true_eq]
  rintro (hab | ⟨hab, eab⟩) (hbc | ⟨hbc, ebc⟩)
  · exact Or.inl (hab.trans hbc)
  · exact Or.inl (hbc ▸ hab)
  · exact Or.inl (hab ▸ hbc)
  · exact Or.inr ⟨hab.trans hbc, ebc.trans eab⟩

/-- Appending a recommendation extends exactly the phase selected by its
effort. -/
theorem phaseList_phaseAppend (ph : Phases) (r : OptimizationRecommendation)
    (i : Phase) :
    phaseList (phaseAppend ph r) i =
      if effortPhase r.implementation_effort == i then phaseList ph i ++ [r]
      else phaseList ph i := by
  cases h : effortPhase r.implementation_effort <;> cases i <;>
    simp [phaseAppend, h, phaseList]

/-- The grouping loop leaves each phase as the accumulator's phase followed by
the matching recommendations, in order. -/
theorem foldl_phaseAppend (recs : List OptimizationRecommendation)
    (ph : Phases) (i : Phase) :
    phaseList (recs.foldl phaseAppend ph) i =
      phaseList ph i ++
        recs.filter (fun r => effortPhase r.implementation_effort == i) := by
  induction recs generalizing ph with
  | nil => simp
  | cons r t ih =>
      rw [List.foldl_cons, ih, phaseList_phaseAppend, List.filter_cons]
      by_cases h : effortPhase r.implementation_effort == i <;> simp [h]

/-- Each phase of `group_by_implementation_phase` is the sublist of its
argument whose efforts map to that phase. -/
theorem groupBy_phaseList (recs : List OptimizationRecommendation)
    (i : Phase) :
    phaseList (groupByImplementationPhase recs) i =
      recs.filter (fun r => effortPhase r.implementation_effort == i) := by
  rw [groupByImplementationPhase, foldl_phaseAppend]
  cases i <;> rfl

/-- Splitting a list into the four phase filters is a permutation of the
list. -/
theorem four_filter_perm (recs : List OptimizationRecommendation) :
    (recs.filter (fun r => effortPhase r.implementation_effort == Phase.immediate) ++
     recs.filter (fun r => effortPhase r.implementation_effort == Phase.short_term) ++
     recs.filter (fun r => effortPhase r.implementation_effort == Phase.medium_term) ++
     recs.filter (fun r => effortPhase r.implementation_effort == Phase.long_term)).Perm
      recs := by
  induction recs with
  | nil => simp
  | cons r t ih =>
      cases h : effortPhase r.implementation_effort
      case immediate =>
        simp [List.filter_cons, h]
        simpa [List.append_assoc] using ih
      case short_term =>
        simp [List.filter_cons, h]
        refine List.Perm.trans List.perm_middle (List.Perm.cons r ?_)
        simpa [List.append_assoc] using ih
      case medium_term =>
        simp [List.filter_cons, h]
        rw [← List.append_assoc]
        refine List.Perm.trans List.perm_middle (List.Perm.cons r ?_)
        simpa [List.append_assoc] using ih
      case long_term =>
        simp [List.filter_cons, h]
        rw [← List.append_assoc, ← List.append_assoc]
        refine List.Perm.trans List.perm_middle (List.Perm.cons r ?_)
        simpa [List.append_assoc] using ih

/-- The response-time dict of the bottleneck check, for a one-metric batch. -/
theorem layerResponseTime_single (m : PerformanceMetrics) (s : String) :
    layerResponseTime [m] s = if m.layer == s then m.response_time else 0 := by
  by_cases hc : (m.layer == s) <;>
    simp [layerResponseTime, List.find?, hc]

/-! Claim theorems. -/

/-- C1 (counterexample): on the empty result batch the aggregator's score is
not 1.0 — the division-by-zero guard of `assess_system_health` returns 0.0,
not the 1.0 the claim states. -/
theorem c1_empty_batch_score_ce :
    (assessSystemHealth [] ["layer1"]).performance_score ≠ 1 := by
  simp [assessSystemHealth, layerEntry, layerResults, layerCriticalIssues,
    layerWarnings]

/-- C1 (amended): for the empty result batch, over any configured scope list,
`assess_system_health` yields overall "healthy", an empty per-scope map,
empty critical-issue and warning lists, and score 0.0 (the guard's value for
zero checks). -/
theorem c1_empty_batch_verdict (layers : List String) :
    assessSystemHealth [] layers =
      { overall_status := HStatus.healthy, layer_status := [],
        critical_issues := [], warnings := [], performance_score := 0 } := by
  have h : List.filterMap (layerEntry []) layers = [] :=
    List.filterMap_eq_nil_iff.mpr (fun l _ => by simp [layerEntry, layerResults])
  simp [assessSystemHealth, h, layerCriticalIssues, layerWarnings, layerResults]

/-- C2 (counterexample): a metric whose values sit exactly at every threshold
produces no finding at all — `analyze_performance` only flags values strictly
greater than the thresholds, so the boundary is not classified `fail`. -/
theorem c2_boundary_ce : analyzePerformance [] [metricAtBoundary] = [] := by
  have hper : perMetricRecommendations [] metricAtBoundary = [] := by
    simp [perMetricRecommendations, lookupConfig, metricAtBoundary]
  have hrt : ∀ s, ¬ (3 < layerResponseTime [metricAtBoundary] s) := by
    intro s
    rw [layerResponseTime_single, not_lt]
    split <;> norm_num [metricAtBoundary]
  have hcross : analyzeCrossLayerOptimizations [metricAtBoundary] = [] := by
    simp [analyzeCrossLayerOptimizations, metricAtBoundary]
    intro x _
    simpa [not_lt] using hrt ("layer" ++ toString (x + 1))
  simp [analyzePerformance, hper, hcross]

/-- C2 (amended): a sample exactly at the configured (or default) threshold
is not flagged: the four checks of `analyze_performance` fire only on values
strictly above their thresholds, and `test_response_time` classifies a
boundary response time as "pass", not as a failure. -/
theorem c2_boundary_not_flagged (targets : List (String × LayerConfig))
    (m : PerformanceMetrics)
    (h1 : m.cpu_usage = (lookupConfig targets m.layer).cpu_threshold.getD (8 / 10))
    (h2 : m.memory_usage = (lookupConfig targets m.layer).memory_threshold.getD (8 / 10))
    (h3 : m.response_time = (lookupConfig targets m.layer).response_time_threshold.getD 2)
    (h4 : m.error_rate = 5 / 100) :
    perMetricRecommendations targets m = [] ∧
    classifyResponseTime m.response_time m.response_time = VStatus.pass := by
  constructor
  · simp [perMetricRecommendations, h1, h2, h3, h4]
  · simp [classifyResponseTime]

/-- Witness for C2 at the concrete boundary metric. -/
theorem c2_boundary_witness :
    metricAtBoundary.cpu_usage
        = (lookupConfig [] metricAtBoundary.layer).cpu_threshold.getD (8 / 10) ∧
    metricAtBoundary.error_rate = 5 / 100 ∧
    perMetricRecommendations [] metricAtBoundary = [] :=
  ⟨rfl, rfl, (c2_boundary_not_flagged [] metricAtBoundary rfl rfl rfl rfl).1⟩

/-- C3: the overall verdict follows the precedence rules in order, first
match wins: "unhealthy" when some configured scope has a fail/error finding;
else "degraded" when the number of degraded scopes (at least one warning, no
fail/error) strictly exceeds 2; else "healthy". -/
theorem c3_overall_precedence (results : List ValidationResult)
    (layers : List String) (hnd : layers.Nodup) :
    (assessSystemHealth results layers).overall_status =
      (if layers.any (scopeUnhealthy results) then HStatus.unhealthy
       else if 2 < (layers.filter (scopeDegraded results)).length then
         HStatus.degraded
       else HStatus.healthy) := by
  have hu := count_status_filterMap results layers HStatus.unhealthy
    (scopeUnhealthy results) (layerEntry_any_unhealthy results)
  have hd := count_status_filterMap results layers HStatus.degraded
    (scopeDegraded results) (layerEntry_any_degraded results)
  simp only [assessSystemHealth, hu, hd]
  by_cases h : layers.any (scopeUnhealthy results) = true
  · obtain ⟨x, hx, hpx⟩ := List.any_eq_true.mp h
    have hpos : 0 < (layers.filter (scopeUnhealthy results)).length :=
      List.length_pos.mpr (List.ne_nil_of_mem (List.mem_filter.mpr ⟨hx, hpx⟩))
    simp [h, hpos]
  · have hnil : layers.filter (scopeUnhealthy results) = [] :=
      List.filter_eq_nil_iff.mpr (fun a ha hpa => h (List.any_eq_true.mpr ⟨a, ha, hpa⟩))
    simp [h, hnil]

/-- Witness for C3: four scopes with one warning finding each and no
fail/error give four degraded scopes, which exceeds the threshold 2, so the
overall verdict is "degraded". -/
theorem c3_four_warn_scopes_witness :
    (["A", "B", "C", "D"] : List String).Nodup ∧
    (assessSystemHealth
      [warnFor "A", warnFor "B", warnFor "C", warnFor "D"]
      ["A", "B", "C", "D"]).overall_status = HStatus.degraded :=
  ⟨by decide,
   (c3_overall_precedence
      [warnFor "A", warnFor "B", warnFor "C", warnFor "D"]
      ["A", "B", "C", "D"] (by decide)).trans (by decide)⟩

/-- C4 (counterexample): a scope with no findings is absent from the
per-scope status map, not mapped to "healthy" — the loop of
`assess_system_health` skips layers with no results. -/
theorem c4_missing_scope_ce :
    (assessSystemHealth [failResultA] ["A", "C"]).layer_status.find?
      (fun p => p.1 == "C") = none := by
  decide

/-- C4 (amended): for every configured scope, the per-scope status map sends
it to "unhealthy" when it has a fail/error finding, to "degraded" when it has
a warning finding and no fail/error, to "healthy" when it has findings but
none of those — and omits it entirely when it has no findings at all. -/
theorem c4_scope_status_mapping (results : List ValidationResult)
    (layers : List String) (l : String) (hl : l ∈ layers)
    (hnd : layers.Nodup) :
    (layerResults results l = [] →
      (assessSystemHealth results layers).layer_status.find? (fun p => p.1 == l)
        = none) ∧
    ((layerResults results l).filter isFailed ≠ [] →
      (assessSystemHealth results layers).layer_status.find? (fun p => p.1 == l)
        = some (l, HStatus.unhealthy)) ∧
    ((layerResults results l).filter isFailed = [] →
      (layerResults results l).filter isWarning ≠ [] →
      (assessSystemHealth results layers).layer_status.find? (fun p => p.1 == l)
        = some (l, HStatus.degraded)) ∧
    (layerResults results l ≠ [] →
      (layerResults results l).filter isFailed = [] →
      (layerResults results l).filter isWarning = [] →
      (assessSystemHealth results layers).layer_status.find? (fun p => p.1 == l)
        = some (l, HStatus.healthy)) := by
  have hfind : (assessSystemHealth results layers).layer_status.find?
      (fun p => p.1 == l) = layerEntry results l := by
    simpa [assessSystemHealth] using find_layerStatus results layers l hl hnd
  refine ⟨?_, ?_, ?_, ?_⟩
  · intro h0
    simp [hfind, layerEntry, h0]
  · intro hf
    obtain ⟨x, hx⟩ := List.exists_mem_of_ne_nil _ hf
    have hxl : x ∈ layerResults results l := (List.mem_filter.mp hx).1
    have hne : ¬ (layerResults results l).isEmpty := by
      simp [List.isEmpty_iff]
      exact List.ne_nil_of_mem hxl
    have hpos : 0 < ((layerResults results l).filter isFailed).length :=
      List.length_pos.mpr hf
    simp [hfind, layerEntry, hne, hpos]
  · intro hf hw
    obtain ⟨x, hx⟩ := List.exists_mem_of_ne_nil _ hw
    have hxl : x ∈ layerResults results l := (List.mem_filter.mp hx).1
    have hne : ¬ (layerResults results l).isEmpty := by
      simp [List.isEmpty_iff]
      exact List.ne_nil_of_mem hxl
    have hpos : 0 < ((layerResults results l).filter isWarning).length :=
      List.length_pos.mpr hw
    simp [hfind, layerEntry, hne, hf, hpos]
  · intro h0 hf hw
    have hne : ¬ (layerResults results l).isEmpty := by
      simp [List.isEmpty_iff]
      exact h0
    simp [hfind, layerEntry, hne, hf, hw]

/-- Witness for C4: with a failure on scope A and a warning on scope B, scope
B is mapped to "degraded". -/
theorem c4_scope_status_witness :
    ("B" ∈ (["A", "B", "C"] : List String)) ∧
    (["A", "B", "C"] : List String).Nodup ∧
    (assessSystemHealth [failResultA, warnResultB] ["A", "B", "C"]).layer_status.find?
      (fun p => p.1 == "B") = some ("B", HStatus.degraded) :=
  ⟨by decide, by decide,
   (c4_scope_status_mapping [failResultA, warnResultB] ["A", "B", "C"] "B"
      (by decide) (by decide)).2.2.1 (by decide) (by decide)⟩

/-- C5 (counterexample): a metric whose layer has no entry in the rule set is
not skipped: with cpu usage 0.9 it is flagged against the default 0.8
threshold and yields a finding. -/
theorem c5_unconfigured_ce :
    analyzePerformance exampleTargets [unconfiguredMetric] ≠ [] := by
  simp [analyzePerformance, perMetricRecommendations, lookupConfig,
    exampleTargets, unconfiguredMetric, analyzeCrossLayerOptimizations,
    layerResponseTime]
  norm_num

/-- C5 (amended): a sample whose layer is missing from the rule set is still
evaluated — exactly as under the empty rule set, i.e. against the default
thresholds (cpu 0.8, memory 0.8, response time 2.0, global error rate 0.05)
rather than being skipped. -/
theorem c5_unconfigured_uses_defaults (targets : List (String × LayerConfig))
    (m : PerformanceMetrics)
    (h : targets.find? (fun p => p.1 == m.layer) = none) :
    perMetricRecommendations targets m = perMetricRecommendations [] m := by
  simp [perMetricRecommendations, lookupConfig, h]

/-- Witness for C5 at the concrete unconfigured metric. -/
theorem c5_unconfigured_witness :
    exampleTargets.find? (fun p => p.1 == unconfiguredMetric.layer) = none ∧
    perMetricRecommendations exampleTargets unconfiguredMetric
      = perMetricRecommendations [] unconfiguredMetric :=
  ⟨rfl, c5_unconfigured_uses_defaults exampleTargets unconfiguredMetric rfl⟩

unseal List.mergeSort List.merge in
/-- C6 (counterexample): with a high-priority recommendation discovered
before a critical-priority one, the plan's rollback steps follow the original
discovery order, not the sorted order the claim demands. -/
theorem c6_rollback_order_ce :
    (generateOptimizationPlan [highRec, criticalRec]).rollback_plan ≠
      generateRollbackPlan (sortedRecommendations [highRec, criticalRec]) := by
  decide

/-- C6 (amended): the plan's rollback steps are exactly one two-line
rollback/verify pair per critical/high recommendation, in the original input
order of the recommendation batch (the source passes the unsorted list to
`generate_rollback_plan`). -/
theorem c6_rollback_pairs_input_order
    (recs : List OptimizationRecommendation) :
    (generateOptimizationPlan recs).rollback_plan =
      (recs.filter isHighPriority).flatMap
        (fun r => [rollbackLine r, verifyLine r]) ∧
    (generateOptimizationPlan recs).rollback_plan.length =
      2 * (recs.filter isHighPriority).length := by
  have h1 : (generateOptimizationPlan recs).rollback_plan
      = generateRollbackPlan recs := rfl
  refine ⟨h1.trans (rollback_filter recs), ?_⟩
  rw [h1, rollback_filter]
  induction recs.filter isHighPriority with
  | nil => rfl
  | cons r t ih =>
      simp [List.flatMap_cons, ih]
      omega

/-- C7: the planner's sort orders by the key (priority rank ascending with
critical=0, high=1, medium=2, low=3, then higher expected improvement first),
is a permutation of the input, and is stable: two recommendations with equal
priority and equal expected improvement keep their relative order. -/
theorem c7_sort_key_and_stability (recs : List OptimizationRecommendation)
    (a b : OptimizationRecommendation) (hsub : [a, b].Sublist recs)
    (hp : a.priority = b.priority)
    (he : a.expected_improvement = b.expected_improvement) :
    (sortedRecommendations recs).Pairwise (fun x y => recLE x y = true) ∧
    (sortedRecommendations recs).Perm recs ∧
    [a, b].Sublist (sortedRecommendations recs) := by
  have hab : recLE a b = true := by
    simp [recLE, hp, he]
  refine ⟨?_, ?_, ?_⟩
  · exact List.sorted_mergeSort (fun x y z => recLE_trans x y z)
      recLE_total recs
  · exact List.mergeSort_perm recs recLE
  · exact List.pair_sublist_mergeSort (fun x y z => recLE_trans x y z)
      recLE_total hab hsub

/-- Witness for C7: two tied recommendations stay in discovery order after
sorting. -/
theorem c7_stable_sort_witness :
    tieA.priority = tieB.priority ∧
    tieA.expected_improvement = tieB.expected_improvement ∧
    [tieA, tieB].Sublist (sortedRecommendations [criticalRec, tieA, tieB]) :=
  ⟨rfl, rfl,
   (c7_sort_key_and_stability [criticalRec, tieA, tieB] tieA tieB
      (List.Sublist.cons criticalRec (List.Sublist.refl [tieA, tieB]))
      rfl rfl).2.2⟩

/-- C8 (counterexample): scope A has a warning finding and a fail finding;
the verdict's warnings list is empty, so the warning message is dropped
rather than collected as the claim states. -/
theorem c8_warn_dropped_ce :
    (assessSystemHealth [warnResultA, failResultA] ["A"]).warnings = [] ∧
    warnResultA.status = VStatus.warning :=
  ⟨rfl, rfl⟩

/-- C8 (amended): the verdict's critical-issue list holds the prefixed
message "Layer scope: message" of every fail/error finding, grouped by scope
in the configured scope order and in input order within a scope; the warnings
list similarly holds the prefixed warning messages, but only of scopes with
zero fail/error findings. -/
theorem c8_issue_lists_grouped_by_scope (results : List ValidationResult)
    (layers : List String) :
    (assessSystemHealth results layers).critical_issues =
      layers.flatMap (fun l =>
        ((layerResults results l).filter isFailed).map
          (fun r => "Layer " ++ l ++ ": " ++ r.message)) ∧
    (assessSystemHealth results layers).warnings =
      layers.flatMap (fun l =>
        if (layerResults results l).filter isFailed = [] then
          ((layerResults results l).filter isWarning).map
            (fun r => "Layer " ++ l ++ ": " ++ r.message)
        else []) := by
  constructor
  · simp only [assessSystemHealth]
    exact congrArg (layers.flatMap) (funext (layerCriticalIssues_eq results))
  · simp only [assessSystemHealth]
    exact congrArg (layers.flatMap) (funext (layerWarnings_eq results))

/-- C9: the plan's phases partition the recommendation batch — their
concatenation is a permutation of the input (none omitted, none duplicated),
membership in each phase is exactly determined by the effort-to-phase
mapping, and that mapping sends low to immediate, medium to short_term, high
to medium_term and complex to long_term. -/
theorem c9_phase_partition (recs : List OptimizationRecommendation) :
    ((generateOptimizationPlan recs).phases.immediate ++
     (generateOptimizationPlan recs).phases.short_term ++
     (generateOptimizationPlan recs).phases.medium_term ++
     (generateOptimizationPlan recs).phases.long_term).Perm recs ∧
    (∀ r, r ∈ (generateOptimizationPlan recs).phases.immediate ↔
      (r ∈ recs ∧ effortPhase r.implementation_effort = Phase.immediate)) ∧
    (∀ r, r ∈ (generateOptimizationPlan recs).phases.short_term ↔
      (r ∈ recs ∧ effortPhase r.implementation_effort = Phase.short_term)) ∧
    (∀ r, r ∈ (generateOptimizationPlan recs).phases.medium_term ↔
      (r ∈ recs ∧ effortPhase r.implementation_effort = Phase.medium_term)) ∧
    (∀ r, r ∈ (generateOptimizationPlan recs).phases.long_term ↔
      (r ∈ recs ∧ effortPhase r.implementation_effort = Phase.long_term)) ∧
    effortPhase "low" = Phase.immediate ∧
    effortPhase "medium" = Phase.short_term ∧
    effortPhase "high" = Phase.medium_term ∧
    effortPhase "complex" = Phase.long_term := by
  have h1 : (generateOptimizationPlan recs).phases.immediate =
      (sortedRecommendations recs).filter
        (fun r => effortPhase r.implementation_effort == Phase.immediate) :=
    groupBy_phaseList (sortedRecommendations recs) Phase.immediate
  have h2 : (generateOptimizationPlan recs).phases.short_term =
      (sortedRecommendations recs).filter
        (fun r => effortPhase r.implementation_effort == Phase.short_term) :=
    groupBy_phaseList (sortedRecommendations recs) Phase.short_term
  have h3 : (generateOptimizationPlan recs).phases.medium_term =
      (sortedRecommendations recs).filter
        (fun r => effortPhase r.implementation_effort == Phase.medium_term) :=
    groupBy_phaseList (sortedRecommendations recs) Phase.medium_term
  have h4 : (generateOptimizationPlan recs).phases.long_term =
      (sortedRecommendations recs).filter
        (fun r => effortPhase r.implementation_effort == Phase.long_term) :=
    groupBy_phaseList (sortedRecommendations recs) Phase.long_term
  refine ⟨?_, ?_, ?_, ?_, ?_, rfl, rfl, rfl, rfl⟩
  · rw [h1, h2, h3, h4]
    exact (four_filter_perm (sortedRecommendations recs)).trans
      (List.mergeSort_perm recs recLE)
  · intro r
    rw [h1]
    simp [List.mem_filter, sortedRecommendations, List.mem_mergeSort]
  · intro r
    rw [h2]
    simp [List.mem_filter, sortedRecommendations, List.mem_mergeSort]
  · intro r
    rw [h3]
    simp [List.mem_filter, sortedRecommendations, List.mem_mergeSort]
  · intro r
    rw [h4]
    simp [List.mem_filter, sortedRecommendations, List.mem_mergeSort]

/-- C10: a recommendation whose effort is none of low/medium/high/complex is
neither rejected nor dropped: the effort lookup falls back to medium_term and
the recommendation lands in the plan's medium_term phase. -/
theorem c10_unknown_effort_medium_term
    (recs : List OptimizationRecommendation)
    (r : OptimizationRecommendation) (hr : r ∈ recs)
    (h1 : r.implementation_effort ≠ "low")
    (h2 : r.implementation_effort ≠ "medium")
    (h3 : r.implementation_effort ≠ "high")
    (h4 : r.implementation_effort ≠ "complex") :
    effortPhase r.implementation_effort = Phase.medium_term ∧
    r ∈ (generateOptimizationPlan recs).phases.medium_term := by
  have hp : effortPhase r.implementation_effort = Phase.medium_term := by
    simp [effortPhase, h1, h2, h3, h4]
  refine ⟨hp, ?_⟩
  have hlist : (generateOptimizationPlan recs).phases.medium_term =
      (sortedRecommendations recs).filter
        (fun x => effortPhase x.implementation_effort == Phase.medium_term) :=
    groupBy_phaseList (sortedRecommendations recs) Phase.medium_term
  rw [hlist]
  exact List.mem_filter.mpr
    ⟨List.mem_mergeSort.mpr hr, by simp [hp]⟩

/-- Witness for C10 at a concrete unknown effort string. -/
theorem c10_unknown_effort_witness :
    oddEffortRec.implementation_effort ≠ "low" ∧
    oddEffortRec ∈ (generateOptimizationPlan [oddEffortRec]).phases.medium_term :=
  ⟨by decide,
   (c10_unknown_effort_medium_term [oddEffortRec] oddEffortRec
      (List.mem_cons_self oddEffortRec [])
      (by decide) (by decide) (by decide) (by decide)).2⟩

end Chimera
